import Mathlib

/-!
Shallow embedding of the GDHS request-orchestration core
(`Agentic-AI/agents/triage.py`, `Agentic-AI/services/policies.py`,
`Agentic-AI/services/orchestrator.py`, `Agentic-AI/schemas/orchestrator.py`).

Modelling conventions:
- Python floats are modelled as rationals (ℚ); the algorithms use only
  +, *, min, max and comparisons, so the structure is preserved exactly.
- Python dicts whose keys matter are modelled as association lists or
  structures with `Option` fields (a missing key is `none`).
- Wall-clock timestamp fields (`started_at`, `completed_at`,
  `duration_ms`, `created_at`, `updated_at`) are not modelled: they carry
  real time only and no claim depends on their values.
- `asyncio` execution is modelled by an environment (`Env`) that fixes,
  per step and per attempt, the outcome the awaited handler would
  produce; `asyncio.gather` of the two detector steps is modelled by
  executing both steps, each against its own outcome stream.
-/

set_option allowUnsafeReducibility true

attribute [local semireducible] Rat.add Rat.mul Rat.div Rat.inv Rat.sub

namespace GDHS

/-- Python `str.lower()`, modelled character-wise; the source applies it
only to ASCII text, where it agrees with `Char.toLower`. -/
def strToLower (s : String) : String :=
  String.mk (s.toList.map Char.toLower)

/-- Body parts, from `schemas/base.py` `BodyPart`. -/
inductive BodyPart where
  | hand
  | leg
  | unknown
deriving DecidableEq, Repr

/-- Triage levels, from `schemas/base.py` `TriageLevel`. -/
inductive TriageLevel where
  | red
  | amber
  | green
deriving DecidableEq, Repr

/-- Processing modes, from `schemas/base.py` `ProcessingMode`. -/
inductive ProcessingMode where
  | auto
  | guided
  | advanced
deriving DecidableEq, Repr

/-- Python substring containment (`needle in hay`). -/
def strContains (hay needle : String) : Bool :=
  decide (List.IsInfix needle.toList hay.toList)

/-- An apostrophe character, used in one symptom keyword of the source. -/
def apos : String := String.singleton (Char.ofNat 39)

/-- Severe-symptom keywords from `TriageAgent._has_severe_symptoms`. -/
def severeSymptomKeywords : List String :=
  ["severe pain", "intense pain", "unbearable", "excruciating",
   "deformity", "bone visible", "bleeding", "numbness",
   "tingling", "can" ++ apos ++ "t move", "unable to bear weight"]

/-- `TriageAgent._has_severe_symptoms`: empty string is falsy in Python,
hence the guard; otherwise any severe keyword contained in the lowered
symptoms string. -/
def hasSevereSymptoms (symptoms : String) : Bool :=
  if symptoms = "" then false
  else severeSymptomKeywords.any (fun kw => strContains (strToLower symptoms) kw)

/-- Python truthiness test `symptoms and self._has_severe_symptoms(symptoms)`
on an optional symptoms string (`None` and `""` are falsy). -/
def symptomsSevere (symptoms : Option String) : Bool :=
  match symptoms with
  | none => false
  | some s => if s = "" then false else hasSevereSymptoms s

/-- Critical-severity keywords of `TriageAgent._calculate_severity_score`. -/
def criticalKeywords : List String :=
  ["compound", "open", "severe", "displaced", "comminuted", "avulsion"]

/-- High-severity keywords of `TriageAgent._calculate_severity_score`. -/
def highKeywords : List String :=
  ["fracture detected", "break", "crack", "confirmed fracture"]

/-- Medium-severity keywords of `TriageAgent._calculate_severity_score`. -/
def mediumKeywords : List String :=
  ["likely fracture", "probable fracture", "suspected fracture"]

/-- Low-severity keywords of `TriageAgent._calculate_severity_score`. -/
def lowKeywords : List String :=
  ["possible fracture", "minor", "hairline", "stress"]

/-- No-finding keywords of `TriageAgent._calculate_severity_score`. -/
def noFindingKeywords : List String :=
  ["no fractures", "no fracture", "normal", "clear", "negative"]

/-- `TriageAgent._calculate_severity_score`: keyword-tiered severity of a
(lower-cased) finding string, in [0, 0.3], defaulting to 0.1. -/
def calculateSeverityScore (primaryFinding : String) : ℚ :=
  if criticalKeywords.any (fun kw => strContains primaryFinding kw) then 3/10
  else if highKeywords.any (fun kw => strContains primaryFinding kw) then 2/10
  else if mediumKeywords.any (fun kw => strContains primaryFinding kw) then 1/10
  else if lowKeywords.any (fun kw => strContains primaryFinding kw) then 1/20
  else if noFindingKeywords.any (fun kw => strContains primaryFinding kw) then 0
  else 1/10

/-- The dict returned by `TriageAgent._score_to_level`. -/
structure LevelInfo where
  level : TriageLevel
  recommendation : String
  priority : String
deriving DecidableEq, Repr

/-- `TriageAgent._score_to_level`: fixed cutoffs 0.75 and 0.4 hardcoded in
the source; the function takes no policy argument. -/
def scoreToLevel (score : ℚ) : LevelInfo :=
  if score ≥ 3/4 then
    { level := .red,
      recommendation := "Seek immediate emergency medical attention",
      priority := "immediate" }
  else if score ≥ 4/10 then
    { level := .amber,
      recommendation := "Seek medical attention within 24-48 hours",
      priority := "urgent" }
  else
    { level := .green,
      recommendation := "Schedule routine medical evaluation if concerned",
      priority := "non-urgent" }

/-- A detection dict as consumed by the triage kernel: the source reads the
keys `label` (default `""`), `score` and `confidence` (either may be
missing). -/
structure Detection where
  label : String := ""
  score : Option ℚ := none
  confidence : Option ℚ := none
deriving DecidableEq, Repr

/-- Effective score of a detection: `detection.get("score")`, falling back
to `detection.get("confidence", 0.0)` when `score` is `None`. -/
def Detection.effScore (d : Detection) : ℚ :=
  d.score.getD (d.confidence.getD 0)

/-- The triage-configuration view returned by
`PolicyService.get_triage_config` (pattern lists and thresholds); the
dynamic-scoring kernel receives it but never reads it. -/
structure TriageConfig where
  redThreshold : ℚ
  amberThreshold : ℚ
  highConfidenceThreshold : ℚ
  mediumConfidenceThreshold : ℚ
  redPatterns : List String
  amberPatterns : List String
  greenPatterns : List String
deriving DecidableEq, Repr

/-- A triage result dict. `triageScore`, `method`, `partialResult` and
`errorMsg` model keys that some return paths omit (`none` = key absent);
`medicalDisclaimer` models presence of the fixed disclaimer string. -/
structure TriageResult where
  level : TriageLevel
  rationale : List String
  confidence : ℚ
  triageScore : Option ℚ := none
  method : Option String := none
  partialResult : Option Bool := none
  errorMsg : Option String := none
  medicalDisclaimer : Bool := false
deriving DecidableEq, Repr

/-- One iteration of the detection loop in
`TriageAgent._apply_dynamic_rules`: state is
(total_triage_score, max_confidence, rationale). The `:.2f`-formatted
confidence suffix of each rationale entry is not modelled. -/
def dynFold (st : ℚ × ℚ × List String) (d : Detection) : ℚ × ℚ × List String :=
  let score := d.effScore
  let maxConf := max st.2.1 score
  let sev := calculateSeverityScore (strToLower d.label)
  let contribution := score * (7/10) + sev * (3/10)
  (max st.1 contribution, maxConf, st.2.2 ++ [d.label ++ " detected"])

/-- `TriageAgent._apply_dynamic_rules`. The `body_part` and
`triage_config` parameters are accepted but never read by the source
(only logged), which the unused binders mirror. The empty-detections
branch returns a dict without `triage_score` and `method` keys. -/
def applyDynamicRules (detections : List Detection) (symptoms : Option String)
    (_bodyPart : Option BodyPart) (_triageConfig : TriageConfig) : TriageResult :=
  if detections = [] then
    let symptomScore : ℚ := if symptomsSevere symptoms then 3/10 else 0
    let totalScore : ℚ := 0 + symptomScore
    { level := (scoreToLevel totalScore).level,
      rationale := ["No fractures detected"] ++
        (if symptomScore > 0 then ["Concerning symptoms reported"]
         else ["No concerning symptoms"]),
      confidence := 8/10 }
  else
    let st := detections.foldl dynFold (0, 0, [])
    let afterSymptoms :=
      if symptomsSevere symptoms then
        (min 1 (st.1 + 1/10), st.2.2 ++ ["Concerning symptoms reported"])
      else
        (st.1, st.2.2)
    { level := (scoreToLevel afterSymptoms.1).level,
      rationale := afterSymptoms.2,
      confidence := st.2.1,
      triageScore := some afterSymptoms.1,
      method := some "dynamic_scoring" }

/-- The catch-all fallback dict of `TriageAgent.process_triage_request`:
note that it carries no `triage_score` key. -/
def errorFallbackResult (e : String) : TriageResult :=
  { level := .amber,
    rationale := ["Triage assessment unavailable, recommend medical evaluation"],
    confidence := 0,
    partialResult := some true,
    errorMsg := some e,
    method := some "error_fallback",
    medicalDisclaimer := true }

/-- `TriageAgent.process_triage_request`: the outcome of awaiting
`classify_urgency` is abstracted as an `Except` (an exception raised by
the invocation itself, e.g. cancellation, versus a returned result dict;
`classify_urgency` has its own internal catch-all and never raises on
its own). On success the result is marked partial when upstream was
partial or the result carries an `error` key, and the disclaimer is
attached; on an exception the fixed fallback is returned. -/
def processTriageRequest (inner : Except String TriageResult)
    (upstreamPartial : Bool) : TriageResult :=
  match inner with
  | .ok result =>
    let result :=
      if upstreamPartial || result.errorMsg.isSome then
        { result with partialResult := some true }
      else result
    { result with medicalDisclaimer := true }
  | .error e => errorFallbackResult e

/-! Policies and gates (`services/policies.py`). -/

/-- Retry policy types, from `services/policies.py` `RetryPolicy`. -/
inductive RetryPolicy where
  | never
  | once
  | exponential
deriving DecidableEq, Repr

/-- Step names, from `schemas/orchestrator.py` `StepName`. -/
inductive StepName where
  | validate
  | route
  | detectHand
  | detectLeg
  | triage
  | diagnose
  | report
  | hospitals
deriving DecidableEq, Repr

/-- Step statuses, from `schemas/orchestrator.py` `StepStatus`. -/
inductive StepStatus where
  | pending
  | running
  | ok
  | error
  | skipped
  | timeout
deriving DecidableEq, Repr

/-- Per-step policy record, from `services/policies.py` `StepPolicy`. -/
structure StepPolicy where
  timeoutSeconds : ℤ
  retryPolicy : RetryPolicy
  maxRetries : ℤ
  isFatalOnError : Bool
  canBeSkipped : Bool
deriving DecidableEq, Repr

/-- Transient-error substrings of `StepPolicy.should_retry`. -/
def transientErrors : List String :=
  ["timeout", "connection", "temporary", "rate_limit"]

/-- `StepPolicy.should_retry`: NEVER refuses; a retry count at or above
`max_retries` refuses; ONCE retries only on count 0; EXPONENTIAL retries
only transient error types (case-insensitive substring match). -/
def StepPolicy.shouldRetry (p : StepPolicy) (currentRetryCount : ℕ)
    (errorType : String) : Bool :=
  if p.retryPolicy = RetryPolicy.never then false
  else if (currentRetryCount : ℤ) ≥ p.maxRetries then false
  else if p.retryPolicy = RetryPolicy.once then currentRetryCount == 0
  else transientErrors.any (fun err => strContains (strToLower errorType) err)

/-- Default step-policy table from
`PolicyConfiguration._create_default_step_policies`. -/
def defaultStepPolicies : List (StepName × StepPolicy) :=
  [(.validate, ⟨5, .never, 0, true, false⟩),
   (.route, ⟨2, .once, 1, true, false⟩),
   (.detectHand, ⟨12, .once, 1, false, true⟩),
   (.detectLeg, ⟨12, .once, 1, false, true⟩),
   (.triage, ⟨2, .never, 0, false, false⟩),
   (.diagnose, ⟨5, .once, 1, false, true⟩),
   (.report, ⟨5, .once, 1, false, true⟩),
   (.hospitals, ⟨3, .once, 1, false, true⟩)]

/-- Default red patterns from `_create_default_red_patterns`. -/
def defaultRedPatterns : List String :=
  ["displaced_fracture", "comminuted_fracture", "open_fracture", "multiple_fractures"]

/-- Default amber patterns from `_create_default_amber_patterns`. -/
def defaultAmberPatterns : List String :=
  ["fracture", "oblique_fracture", "spiral_fracture"]

/-- Default green patterns from `_create_default_green_patterns`. -/
def defaultGreenPatterns : List String :=
  ["hairline_fracture", "stress_fracture", "avulsion_fracture"]

/-- Policy configuration, from `services/policies.py` `PolicyConfiguration`.
Field defaults are the values of the `PolicyService` default instance,
which is built from `app/config.py` (router 0.70, detector floor 0.35,
NMS IoU 0.50, triage red 0.8, amber 0.6, high and medium confidence
0.8 and 0.6, max_retries 1). The `config_hash` and `created_at` metadata
fields are not modelled. -/
structure PolicyConfiguration where
  routerThreshold : ℚ := 7/10
  detectorScoreMin : ℚ := 35/100
  nmsIou : ℚ := 1/2
  triageRedThreshold : ℚ := 8/10
  triageAmberThreshold : ℚ := 6/10
  triageHighConfidenceThreshold : ℚ := 8/10
  triageMediumConfidenceThreshold : ℚ := 6/10
  triageRedPatterns : List String := defaultRedPatterns
  triageAmberPatterns : List String := defaultAmberPatterns
  triageGreenPatterns : List String := defaultGreenPatterns
  maxRetries : ℤ := 1
  stepPolicies : List (StepName × StepPolicy) := defaultStepPolicies
deriving DecidableEq, Repr

/-- The default `PolicyConfiguration` held by the `PolicyService`. -/
def defaultPolicyConfiguration : PolicyConfiguration := {}

/-- The fallback policy of `PolicyConfiguration.get_step_policy` for a
step missing from the table. -/
def fallbackStepPolicy : StepPolicy := ⟨30, .never, 0, false, true⟩

/-- `PolicyConfiguration.get_step_policy`. -/
def PolicyConfiguration.getStepPolicy (cfg : PolicyConfiguration)
    (stepName : StepName) : StepPolicy :=
  match cfg.stepPolicies.lookup stepName with
  | some p => p
  | none => fallbackStepPolicy

/-- `PolicyService.should_retry_step`: the TRIAGE step is never retried;
otherwise the step policy decides. -/
def shouldRetryStep (cfg : PolicyConfiguration) (stepName : StepName)
    (currentRetryCount : ℕ) (errorType : String) : Bool :=
  if stepName = StepName.triage then false
  else (cfg.getStepPolicy stepName).shouldRetry currentRetryCount errorType

/-- `PolicyService.get_triage_config` as a view of a configuration. -/
def getTriageConfig (cfg : PolicyConfiguration) : TriageConfig :=
  { redThreshold := cfg.triageRedThreshold,
    amberThreshold := cfg.triageAmberThreshold,
    highConfidenceThreshold := cfg.triageHighConfidenceThreshold,
    mediumConfidenceThreshold := cfg.triageMediumConfidenceThreshold,
    redPatterns := cfg.triageRedPatterns,
    amberPatterns := cfg.triageAmberPatterns,
    greenPatterns := cfg.triageGreenPatterns }

/-! Override validation (`PolicyService.validate_overrides`). The
free-form override values (`Any` in Python) are modelled by `PyVal`;
a Python `bool` is an `int` (`intVal 0` or `intVal 1`). -/

/-- A Python value as received in an overrides mapping. -/
inductive PyVal where
  | intVal (n : ℤ)
  | floatVal (q : ℚ)
  | strVal (s : String)
  | listVal (xs : List PyVal)
  | dictVal (kvs : List (String × PyVal))
  | noneVal

/-- Python `isinstance(val, (int, float))`. -/
def PyVal.isNumber : PyVal → Bool
  | .intVal _ => true
  | .floatVal _ => true
  | _ => false

/-- Numeric value of an int or float `PyVal` (0 otherwise; the source
only compares after the `isinstance` guard). -/
def PyVal.toRat : PyVal → ℚ
  | .intVal n => (n : ℚ)
  | .floatVal q => q
  | _ => 0

/-- The check `isinstance(val, (int, float)) and 0.0 <= val <= 1.0`. -/
def PyVal.thresholdInRange (v : PyVal) : Bool :=
  v.isNumber && (0 ≤ v.toRat && v.toRat ≤ 1)

/-- The check `isinstance(val, list) and all(isinstance(p, str) ...)`. -/
def PyVal.isListOfStr : PyVal → Bool
  | .listVal xs => xs.all fun x => match x with | .strVal _ => true | _ => false
  | _ => false

/-- The check `isinstance(val, int) and val >= 0`. -/
def PyVal.isNonnegInt : PyVal → Bool
  | .intVal n => 0 ≤ n
  | _ => false

/-- The check `isinstance(timeout, int) and timeout > 0`. -/
def PyVal.isPosInt : PyVal → Bool
  | .intVal n => 0 < n
  | _ => false

/-- The four triage threshold keys iterated by `validate_overrides`. -/
def triageThresholdKeys : List String :=
  ["triage_red_threshold", "triage_amber_threshold",
   "triage_high_confidence_threshold", "triage_medium_confidence_threshold"]

/-- The three triage pattern keys iterated by `validate_overrides`. -/
def triagePatternKeys : List String :=
  ["triage_red_patterns", "triage_amber_patterns", "triage_green_patterns"]

/-- Legal step names in `timeout_overrides`: the `StepName` enum values
plus the special alias `detect`. -/
def validTimeoutStepNames : List String :=
  ["validate", "route", "detect_hand", "detect_leg", "triage",
   "diagnose", "report", "hospitals", "detect"]

/-- Error contribution of one optionally-present threshold key. -/
def thresholdKeyErrors (ov : List (String × PyVal)) (key : String) : List String :=
  match ov.lookup key with
  | some v => if v.thresholdInRange then [] else [key ++ " must be between 0.0 and 1.0"]
  | none => []

/-- Error contribution of one optionally-present pattern-list key. -/
def patternKeyErrors (ov : List (String × PyVal)) (key : String) : List String :=
  match ov.lookup key with
  | some v => if v.isListOfStr then [] else [key ++ " must be a list of strings"]
  | none => []

/-- Error contribution of one `timeout_overrides` entry. -/
def timeoutEntryErrors (kv : String × PyVal) : List String :=
  if ¬ validTimeoutStepNames.contains kv.1 then ["Invalid step name: " ++ kv.1]
  else if ¬ kv.2.isPosInt then ["Timeout for " ++ kv.1 ++ " must be a positive integer"]
  else []

/-- `PolicyService.validate_overrides`, check for check in source order.
Keys the source never looks up contribute nothing. -/
def validateOverrides (ov : List (String × PyVal)) : List String :=
  thresholdKeyErrors ov "router_threshold"
  ++ thresholdKeyErrors ov "detector_score_min"
  ++ thresholdKeyErrors ov "nms_iou"
  ++ (triageThresholdKeys.foldl (fun acc key => acc ++ thresholdKeyErrors ov key) [])
  ++ (triagePatternKeys.foldl (fun acc key => acc ++ patternKeyErrors ov key) [])
  ++ (match ov.lookup "max_retries" with
      | some v => if v.isNonnegInt then [] else ["max_retries must be a non-negative integer"]
      | none => [])
  ++ (match ov.lookup "timeout_overrides" with
      | some (.dictVal kvs) => kvs.foldl (fun acc kv => acc ++ timeoutEntryErrors kv) []
      | some _ => ["timeout_overrides must be a dictionary"]
      | none => [])

/-! Step graph (`schemas/orchestrator.py`). Wall-clock timestamp fields
are not modelled (see the header note). -/

/-- A processing step record, from `schemas/orchestrator.py`
`ProcessingStep`. -/
structure ProcessingStep where
  name : StepName
  status : StepStatus := .pending
  confidence : Option ℚ := none
  errorMessage : Option String := none
  retryCount : ℕ := 0
  artifacts : List (String × String) := []
deriving DecidableEq, Repr

/-- Python `dict.update` on a string-keyed association list: existing
keys are overwritten in place, new keys are appended. -/
def assocUpdate (base news : List (String × String)) : List (String × String) :=
  news.foldl
    (fun acc kv =>
      if acc.any (fun e => e.1 = kv.1) then
        acc.map (fun e => if e.1 = kv.1 then kv else e)
      else acc ++ [kv])
    base

/-- `ProcessingStep.complete`: status OK; confidence only overwritten when
one was passed; artifacts merged only when the passed dict is non-empty
(Python truthiness of the `artifacts` argument). -/
def ProcessingStep.complete (s : ProcessingStep) (confidence : Option ℚ)
    (artifacts : List (String × String)) : ProcessingStep :=
  { s with
    status := .ok,
    confidence := match confidence with | some c => some c | none => s.confidence,
    artifacts := if artifacts = [] then s.artifacts else assocUpdate s.artifacts artifacts }

/-- `ProcessingStep.fail`. -/
def ProcessingStep.fail (s : ProcessingStep) (errorMessage : String) : ProcessingStep :=
  { s with status := .error, errorMessage := some errorMessage }

/-- `ProcessingStep.timeout`. -/
def ProcessingStep.markTimeout (s : ProcessingStep) : ProcessingStep :=
  { s with status := .timeout, errorMessage := some "Step timed out" }

/-- `ProcessingStep.skip`. -/
def ProcessingStep.skip (s : ProcessingStep) (reason : String) : ProcessingStep :=
  { s with status := .skipped, errorMessage := some reason }

/-- The detection-thresholds snapshot stored on a step graph
(`PolicyService.get_detection_thresholds` returns exactly these keys). -/
structure DetectionThresholds where
  routerThreshold : ℚ
  detectorScoreMin : ℚ
  nmsIou : ℚ
deriving DecidableEq, Repr

/-- Step graph, from `schemas/orchestrator.py` `StepGraph`. The
timeouts snapshot, `request_id` and `config_hash` are not modelled
(no claim reads them); `triage_level` stores the raw `level` string of
the triage result dict. -/
structure StepGraph where
  mode : ProcessingMode
  steps : List ProcessingStep := []
  partialResult : Bool := false
  thresholds : DetectionThresholds
  detectedBodyPart : Option BodyPart := none
  triageLevel : Option String := none
deriving DecidableEq, Repr

/-- `StepGraph.get_step`: first step with the given name. -/
def StepGraph.getStep (g : StepGraph) (stepName : StepName) : Option ProcessingStep :=
  g.steps.find? (fun s => s.name == stepName)

/-- `StepGraph.add_step`: appends a fresh PENDING step. -/
def StepGraph.addStep (g : StepGraph) (stepName : StepName) : StepGraph :=
  { g with steps := g.steps ++ [{ name := stepName }] }

/-- Replace the first step with the given name by `f` applied to it
(the source mutates the single object `get_step` returned). -/
def updateFirstStep (steps : List ProcessingStep) (stepName : StepName)
    (f : ProcessingStep → ProcessingStep) : List ProcessingStep :=
  match steps with
  | [] => []
  | s :: rest =>
    if s.name = stepName then f s :: rest
    else s :: updateFirstStep rest stepName f

/-- Graph-level step mutation through `get_step`. -/
def StepGraph.updateStep (g : StepGraph) (stepName : StepName)
    (f : ProcessingStep → ProcessingStep) : StepGraph :=
  { g with steps := updateFirstStep g.steps stepName f }

/-- `StepGraph.has_fatal_error`: hardcoded to the VALIDATE and ROUTE
steps, and to status ERROR only (a TIMEOUT never counts). -/
def StepGraph.hasFatalError (g : StepGraph) : Bool :=
  g.steps.any (fun s =>
    (s.name == StepName.validate || s.name == StepName.route) && s.status == StepStatus.error)

/-- `StepGraph.get_failed_steps`: steps in ERROR or TIMEOUT. -/
def StepGraph.getFailedSteps (g : StepGraph) : List ProcessingStep :=
  g.steps.filter (fun s => s.status == StepStatus.error || s.status == StepStatus.timeout)

/-- `StepGraph.is_complete`: every step in a terminal status. -/
def StepGraph.isComplete (g : StepGraph) : Bool :=
  g.steps.all (fun s =>
    s.status == StepStatus.ok || s.status == StepStatus.error ||
    s.status == StepStatus.skipped || s.status == StepStatus.timeout)

/-! Orchestrator (`services/orchestrator.py`). Stage invocations are
abstracted by an environment fixing, per step name and attempt index,
the outcome the awaited handler call would have: a returned value, an
`asyncio.TimeoutError`, or another exception. -/

/-- A successfully returned handler value. `isDict` models
`isinstance(result, dict)`; `bodyPart` and `level` model the optional
`body_part` and `level` keys the orchestrator projects for the ROUTE
and TRIAGE steps. -/
structure StageSuccess where
  isDict : Bool := true
  confidence : Option ℚ := none
  artifacts : List (String × String) := []
  bodyPart : Option BodyPart := none
  level : Option String := none
deriving DecidableEq, Repr

/-- Outcome of one handler invocation attempt. -/
inductive Outcome where
  | success (r : StageSuccess)
  | timedOut
  | raised (errorType : String) (message : String)
deriving DecidableEq, Repr

/-- Execution environment: which step handlers are registered, and each
attempt's outcome. -/
structure Env where
  handlers : StepName → Bool
  outcome : StepName → ℕ → Outcome

/-- Projection of step-specific extras into the graph after a successful
dict result (`body_part` for ROUTE, `level` for TRIAGE). -/
def projectExtras (g : StepGraph) (stepName : StepName) (r : StageSuccess) : StepGraph :=
  if stepName = StepName.route then
    match r.bodyPart with
    | some bp => { g with detectedBodyPart := some bp }
    | none => g
  else if stepName = StepName.triage then
    match r.level with
    | some lv => { g with triageLevel := some lv }
    | none => g
  else g

/-- The internal reset of `_execute_step` before a retry: status back to
PENDING, error message cleared (timestamps not modelled). -/
def resetForRetry (s : ProcessingStep) : ProcessingStep :=
  { s with status := .pending, errorMessage := none }

/-- The attempt prologue of `_execute_step`: `step.start()` followed by
`step.retry_count = attempt`. -/
def startAttempt (attempt : ℕ) (s : ProcessingStep) : ProcessingStep :=
  { s with status := .running, retryCount := attempt }

/-- The retry loop of `OrchestratorService._execute_step` (the
`while True` with `attempt`), fuel-indexed; `executeStep` supplies fuel
`max_retries + 1`, which is never exhausted because a retry requires
`attempt < max_retries`. -/
def execLoop (cfg : PolicyConfiguration) (env : Env) (stepName : StepName) :
    ℕ → ℕ → StepGraph → StepGraph
  | 0, _, g => g
  | fuel + 1, attempt, g =>
    let g1 := g.updateStep stepName (startAttempt attempt)
    match env.outcome stepName attempt with
    | .success r =>
      if r.isDict then
        projectExtras
          (g1.updateStep stepName (fun s => s.complete r.confidence r.artifacts))
          stepName r
      else
        g1.updateStep stepName (fun s => s.complete none [])
    | .timedOut =>
      let g2 := g1.updateStep stepName ProcessingStep.markTimeout
      if shouldRetryStep cfg stepName attempt "timeout" then
        execLoop cfg env stepName fuel (attempt + 1) (g2.updateStep stepName resetForRetry)
      else g2
    | .raised errorType message =>
      if shouldRetryStep cfg stepName attempt errorType then
        execLoop cfg env stepName fuel (attempt + 1) (g1.updateStep stepName resetForRetry)
      else g1.updateStep stepName (fun s => s.fail message)

/-- `OrchestratorService._execute_step`: missing step returns unchanged;
a step not in PENDING returns unchanged; a missing handler skips the
step; otherwise the retry loop runs. -/
def executeStep (cfg : PolicyConfiguration) (env : Env) (g : StepGraph)
    (stepName : StepName) : StepGraph :=
  match g.getStep stepName with
  | none => g
  | some step =>
    if step.status ≠ StepStatus.pending then g
    else if ¬ env.handlers stepName then
      g.updateStep stepName (fun s => s.skip "No handler available")
    else
      execLoop cfg env stepName ((cfg.getStepPolicy stepName).maxRetries.toNat + 1) 0 g

/-- A processing request as the orchestrator reads it: its mode and the
value of `request.consents.get("geolocation", False)`. -/
structure ProcessingRequest where
  mode : ProcessingMode
  geolocationConsent : Bool := false
deriving DecidableEq, Repr

/-- `OrchestratorService._create_step_graph`: seeds VALIDATE, ROUTE,
TRIAGE, DIAGNOSE, REPORT, and HOSPITALS iff geolocation consent was
given; detector steps are added later from routing results. -/
def createStepGraph (cfg : PolicyConfiguration) (req : ProcessingRequest) : StepGraph :=
  let g : StepGraph :=
    { mode := req.mode,
      thresholds := ⟨cfg.routerThreshold, cfg.detectorScoreMin, cfg.nmsIou⟩ }
  let g := (((g.addStep .validate).addStep .route).addStep .triage).addStep .diagnose
  let g := g.addStep .report
  if req.geolocationConsent then g.addStep .hospitals else g

/-- The detector block of `_process_auto_mode` (lines 119-138): runs only
when ROUTE ended OK; HAND and LEG each add and run one detector; UNKNOWN
adds both and runs them via `asyncio.gather` (modelled by executing both
steps, each against its own outcome stream); a `None` body part runs
nothing. -/
def autoDetectPhase (cfg : PolicyConfiguration) (env : Env) (g : StepGraph) : StepGraph :=
  match g.getStep .route with
  | some routeStep =>
    if routeStep.status = StepStatus.ok then
      match g.detectedBodyPart with
      | some .hand => executeStep cfg env (g.addStep .detectHand) .detectHand
      | some .leg => executeStep cfg env (g.addStep .detectLeg) .detectLeg
      | some .unknown =>
        let g := (g.addStep .detectHand).addStep .detectLeg
        executeStep cfg env (executeStep cfg env g .detectHand) .detectLeg
      | none => g
    else g
  | none => g

/-- The step executions in the tail of `_process_auto_mode`: TRIAGE,
DIAGNOSE, REPORT, then HOSPITALS when it was seeded. -/
def autoTailSteps (cfg : PolicyConfiguration) (env : Env) (g : StepGraph) : StepGraph :=
  let g := executeStep cfg env g .triage
  let g := executeStep cfg env g .diagnose
  let g := executeStep cfg env g .report
  if (g.getStep .hospitals).isSome then executeStep cfg env g .hospitals else g

/-- The partial-results block closing `_process_auto_mode` (lines
149-153): set `partial` when some step failed and no fatal error
occurred. -/
def setPartialFlag (g : StepGraph) : StepGraph :=
  if ¬ g.getFailedSteps.isEmpty ∧ ¬ g.hasFatalError then
    { g with partialResult := true }
  else g

/-- The tail of `_process_auto_mode`: remaining steps, then the
partial-result flag. -/
def autoTail (cfg : PolicyConfiguration) (env : Env) (g : StepGraph) : StepGraph :=
  setPartialFlag (autoTailSteps cfg env g)

/-- `OrchestratorService._process_auto_mode`. -/
def processAutoMode (cfg : PolicyConfiguration) (env : Env) (g : StepGraph) : StepGraph :=
  let g := executeStep cfg env g .validate
  if g.hasFatalError then g
  else
    let g := executeStep cfg env g .route
    if g.hasFatalError then g
    else autoTail cfg env (autoDetectPhase cfg env g)

/-- The low-confidence routing check of `_process_guided_mode`
(lines 169-183): a `GuidedPrompt` is constructed in a local variable and
discarded; the only effect on state is defaulting the detected body part
to UNKNOWN. The Python condition `route_step.confidence and ...` is
falsy for a missing or zero confidence. -/
def guidedRouteCheck (g : StepGraph) : StepGraph :=
  match g.getStep .route with
  | some routeStep =>
    match routeStep.confidence with
    | some c =>
      if c ≠ 0 ∧ c < g.thresholds.routerThreshold then
        { g with detectedBodyPart := some .unknown }
      else g
    | none => g
  | none => g

/-- The detector block of `_process_guided_mode` (lines 185-193): the
body part is read once; HAND or UNKNOWN adds and runs DETECT_HAND, then
LEG or UNKNOWN adds and runs DETECT_LEG. -/
def guidedDetectPhase (cfg : PolicyConfiguration) (env : Env) (g : StepGraph) : StepGraph :=
  let detected := g.detectedBodyPart
  let g :=
    if detected = some BodyPart.hand ∨ detected = some BodyPart.unknown then
      executeStep cfg env (g.addStep .detectHand) .detectHand
    else g
  if detected = some BodyPart.leg ∨ detected = some BodyPart.unknown then
    executeStep cfg env (g.addStep .detectLeg) .detectLeg
  else g

/-- `OrchestratorService._process_guided_mode`: note that unlike auto
mode it never touches `step_graph.partial`, and the consent prompt it
builds is likewise discarded. -/
def processGuidedMode (cfg : PolicyConfiguration) (env : Env)
    (req : ProcessingRequest) (g : StepGraph) : StepGraph :=
  let g := executeStep cfg env g .validate
  if g.hasFatalError then g
  else
    let g := executeStep cfg env g .route
    if g.hasFatalError then g
    else
      let g := guidedDetectPhase cfg env (guidedRouteCheck g)
      let g :=
        if (g.getStep .hospitals).isSome ∧ ¬ req.geolocationConsent then
          g.updateStep .hospitals (fun s => s.skip "Geolocation consent not provided")
        else g
      let g := executeStep cfg env g .triage
      let g := executeStep cfg env g .diagnose
      let g := executeStep cfg env g .report
      if (match g.getStep .hospitals with
          | some s => s.status == StepStatus.pending
          | none => false) then
        executeStep cfg env g .hospitals
      else g

/-- A guided prompt record, from `schemas/orchestrator.py` `GuidedPrompt`. -/
structure GuidedPrompt where
  stepName : StepName
  promptType : String
  message : String
  options : List String := []
  confidence : Option ℚ := none
deriving DecidableEq, Repr

/-- The orchestrator response, from `schemas/orchestrator.py`
`ProcessingResponse` (the optional semantic result fields are not
modelled; no claim reads them). -/
structure ProcessingResponse where
  stepGraph : StepGraph
  guidedPrompts : List GuidedPrompt := []
  artifacts : List (String × String) := []
deriving DecidableEq, Repr

/-- `OrchestratorService._create_response`: builds the response from the
graph and aggregates step artifacts; `guided_prompts` keeps its default
empty value — nothing ever appends to it. -/
def createResponse (g : StepGraph) : ProcessingResponse :=
  { stepGraph := g,
    artifacts := g.steps.foldl (fun acc s => assocUpdate acc s.artifacts) [] }

/-- `OrchestratorService.process_request`: build the graph, dispatch on
mode (`_process_advanced_mode` delegates to `_process_auto_mode`; the
override-derived configuration is the `cfg` argument), assemble the
response. -/
def processRequest (cfg : PolicyConfiguration) (env : Env)
    (req : ProcessingRequest) : ProcessingResponse :=
  let g := createStepGraph cfg req
  let g :=
    match req.mode with
    | .auto => processAutoMode cfg env g
    | .guided => processGuidedMode cfg env req g
    | .advanced => processAutoMode cfg env g
  createResponse g

/-! Theorems. -/

/-- The score-to-level mapping as the specification words it,
parameterized by the policy's red and amber cutoffs; for comparison
with the source's `scoreToLevel`. -/
def specScoreToLevel (redCutoff amberCutoff s : ℚ) : TriageLevel :=
  if s ≥ redCutoff then .red
  else if s ≥ amberCutoff then .amber
  else .green

/-- C1 (counterexample): the claim that the kernel maps scores to levels
via the policy's triage cutoffs is false: `_score_to_level` takes no
policy argument, so for cutoffs red = 0.9, amber = 0.4 and score 0.8 the
claimed mapping gives AMBER while the code gives RED. -/
theorem scoreToLevel_policy_claim_false :
    ¬ (∀ redCutoff amberCutoff s : ℚ, 0 ≤ s → s ≤ 1 →
        (scoreToLevel s).level = specScoreToLevel redCutoff amberCutoff s) := by
  intro h
  have h8 := h (9/10) (4/10) (8/10) (by norm_num) (by norm_num)
  exact absurd h8 (by decide)

/-- C1 (amended): the kernel's score-to-level mapping uses the fixed
cutoffs 0.75 and 0.40 hardcoded in `_score_to_level` — it coincides with
the spec's mapping instantiated at red = 0.75, amber = 0.40 — and the
dynamic-scoring kernel output is invariant under any change to the
policy's triage configuration; moreover the default policy's triage
cutoffs are red = 0.8 and amber = 0.6, not 0.75 and 0.40. -/
theorem scoreToLevel_fixed_cutoffs :
    (∀ s : ℚ, (scoreToLevel s).level = specScoreToLevel (3/4) (4/10) s) ∧
    (∀ ds sym bp cfg₁ cfg₂,
      applyDynamicRules ds sym bp cfg₁ = applyDynamicRules ds sym bp cfg₂) ∧
    defaultPolicyConfiguration.triageRedThreshold = 8/10 ∧
    defaultPolicyConfiguration.triageAmberThreshold = 6/10 := by
  refine ⟨fun s => ?_, fun _ _ _ _ _ => rfl, rfl, rfl⟩
  unfold scoreToLevel specScoreToLevel
  split_ifs <;> rfl

/-- The transient-error test of `StepPolicy.should_retry` as a
standalone predicate. -/
def isTransientErrorType (errorType : String) : Bool :=
  transientErrors.any (fun err => strContains (strToLower errorType) err)

/-- C5: `should_retry` returns true iff the retry count is below
`max_retries`, the retry policy is not NEVER, EXPONENTIAL further
requires a transient error type, and ONCE further requires count 0;
and `PolicyService.should_retry_step` always refuses for TRIAGE. -/
theorem shouldRetry_characterization :
    (∀ (p : StepPolicy) (n : ℕ) (e : String),
        p.shouldRetry n e = true ↔
          ((n : ℤ) < p.maxRetries ∧ p.retryPolicy ≠ RetryPolicy.never ∧
           (p.retryPolicy = RetryPolicy.exponential → isTransientErrorType e = true) ∧
           (p.retryPolicy = RetryPolicy.once → n = 0))) ∧
    (∀ (cfg : PolicyConfiguration) (n : ℕ) (e : String),
        shouldRetryStep cfg StepName.triage n e = false) := by
  constructor
  · intro p n e
    unfold StepPolicy.shouldRetry
    rcases hp : p.retryPolicy
    · simp [hp]
    · simp [hp, Int.not_le]
    · simp [hp, isTransientErrorType, Int.not_le]
  · intro cfg n e
    rfl

/-- C6 (counterexample): the error fallback of `process_triage_request`
carries no triage score at all, refuting the claimed score of 0.5. -/
theorem processTriageRequest_fallback_has_no_score :
    (processTriageRequest (Except.error "boom") false).triageScore = none ∧
    (processTriageRequest (Except.error "boom") false).triageScore ≠ some (1/2) := by
  exact ⟨rfl, by decide⟩

/-- C6 (amended): the entry point is total over every invocation outcome,
and on an internal exception it returns exactly the fallback: level
AMBER, rationale ["Triage assessment unavailable, recommend medical
evaluation"], confidence 0, method error_fallback, partial true, the
error message, the disclaimer — and no triage score. -/
theorem processTriageRequest_error_fallback :
    ∀ (e : String) (up : Bool),
      processTriageRequest (Except.error e) up =
        { level := .amber,
          rationale := ["Triage assessment unavailable, recommend medical evaluation"],
          confidence := 0,
          triageScore := none,
          method := some "error_fallback",
          partialResult := some true,
          errorMsg := some e,
          medicalDisclaimer := true } :=
  fun _ _ => rfl

/-- The claim's per-detection formula:
`contribution = 0.7 * detection.score + 0.3 * severity(label)`, where the
kernel lower-cases the label before the severity lookup. -/
def detectionContribution (d : Detection) : ℚ :=
  (7/10) * d.effScore + (3/10) * calculateSeverityScore (strToLower d.label)

theorem calculateSeverityScore_nonneg (s : String) : 0 ≤ calculateSeverityScore s := by
  unfold calculateSeverityScore
  split_ifs <;> norm_num

theorem detectionContribution_nonneg (d : Detection) (h : 0 ≤ d.effScore) :
    0 ≤ detectionContribution d := by
  have hs := calculateSeverityScore_nonneg (strToLower d.label)
  unfold detectionContribution
  nlinarith

theorem foldl_dynFold_fst (ds : List Detection) :
    ∀ t c r, (ds.foldl dynFold (t, c, r)).1
      = ds.foldl (fun m d => max m (detectionContribution d)) t := by
  induction ds with
  | nil => intro t c r; rfl
  | cons d rest ih =>
    intro t c r
    have he : d.effScore * (7/10) + calculateSeverityScore (strToLower d.label) * (3/10)
        = detectionContribution d := by
      unfold detectionContribution; ring
    simp only [List.foldl_cons, dynFold]
    rw [ih, he]

theorem foldl_dynFold_conf (ds : List Detection) :
    ∀ t c r, (ds.foldl dynFold (t, c, r)).2.1
      = ds.foldl (fun m d => max m d.effScore) c := by
  induction ds with
  | nil => intro t c r; rfl
  | cons d rest ih =>
    intro t c r
    simp only [List.foldl_cons, dynFold]
    rw [ih]

theorem le_foldl_max (f : Detection → ℚ) (l : List Detection) :
    ∀ a : ℚ, a ≤ l.foldl (fun m d => max m (f d)) a := by
  induction l with
  | nil => intro a; exact le_refl a
  | cons d rest ih =>
    intro a
    exact le_trans (le_max_left a (f d)) (ih (max a (f d)))

theorem el_le_foldl_max (f : Detection → ℚ) (l : List Detection) :
    ∀ a : ℚ, ∀ d ∈ l, f d ≤ l.foldl (fun m x => max m (f x)) a := by
  induction l with
  | nil => intro a d hd; cases hd
  | cons x rest ih =>
    intro a d hd
    rcases List.mem_cons.mp hd with h | h
    · subst h
      exact le_trans (le_max_right a (f d)) (le_foldl_max f rest (max a (f d)))
    · exact ih (max a (f x)) d h

theorem foldl_max_cases (f : Detection → ℚ) (l : List Detection) :
    ∀ a : ℚ, l.foldl (fun m d => max m (f d)) a = a ∨
      ∃ d ∈ l, l.foldl (fun m d => max m (f d)) a = f d := by
  induction l with
  | nil => intro a; exact Or.inl rfl
  | cons x rest ih =>
    intro a
    rcases ih (max a (f x)) with h | ⟨d, hd, he⟩
    · rcases max_choice a (f x) with hm | hm
      · exact Or.inl (by rw [List.foldl_cons, h, hm])
      · exact Or.inr ⟨x, List.mem_cons_self x rest, by rw [List.foldl_cons, h, hm]⟩
    · exact Or.inr ⟨d, List.mem_cons_of_mem x hd, by rw [List.foldl_cons, he]⟩

/-- C2: over a non-empty detection list (with the data model's
non-negative scores) the dynamic-scoring triage score is the maximum
detection contribution `0.7 * score + 0.3 * severity(label)`, raised by
0.1 (capped at 1) when the symptoms contain a severe-symptom keyword,
and the confidence is the maximum detection score; with no detections
the confidence is 0.8. -/
theorem applyDynamicRules_score_is_max_contribution :
    (∀ (ds : List Detection) (sym : Option String) (bp : Option BodyPart)
        (cfg : TriageConfig), ds ≠ [] → (∀ d ∈ ds, 0 ≤ d.effScore) →
      ∃ m conf,
        (applyDynamicRules ds sym bp cfg).triageScore
          = some (if symptomsSevere sym then min 1 (m + 1/10) else m) ∧
        (applyDynamicRules ds sym bp cfg).confidence = conf ∧
        (∃ d ∈ ds, m = detectionContribution d) ∧
        (∀ d ∈ ds, detectionContribution d ≤ m) ∧
        (∃ d ∈ ds, conf = d.effScore) ∧
        (∀ d ∈ ds, d.effScore ≤ conf)) ∧
    (∀ (sym : Option String) (bp : Option BodyPart) (cfg : TriageConfig),
      (applyDynamicRules [] sym bp cfg).confidence = 8/10) := by
  constructor
  · intro ds sym bp cfg hne hnn
    obtain ⟨d₀, rest, rfl⟩ := List.exists_cons_of_ne_nil hne
    refine ⟨((d₀ :: rest).foldl dynFold (0, 0, [])).1,
            ((d₀ :: rest).foldl dynFold (0, 0, [])).2.1, ?_, ?_, ?_, ?_, ?_, ?_⟩
    · unfold applyDynamicRules
      rw [if_neg hne]
      cases hsev : symptomsSevere sym <;> simp [hsev]
    · unfold applyDynamicRules
      rw [if_neg hne]
    · rw [foldl_dynFold_fst]
      rcases foldl_max_cases detectionContribution (d₀ :: rest) 0 with h | ⟨d, hd, he⟩
      · refine ⟨d₀, List.mem_cons_self d₀ rest, le_antisymm ?_ ?_⟩
        · rw [h]
          exact detectionContribution_nonneg d₀ (hnn d₀ (List.mem_cons_self d₀ rest))
        · exact el_le_foldl_max detectionContribution (d₀ :: rest) 0 d₀
            (List.mem_cons_self d₀ rest)
      · exact ⟨d, hd, he⟩
    · intro d hd
      rw [foldl_dynFold_fst]
      exact el_le_foldl_max detectionContribution (d₀ :: rest) 0 d hd
    · rw [foldl_dynFold_conf]
      rcases foldl_max_cases Detection.effScore (d₀ :: rest) 0 with h | ⟨d, hd, he⟩
      · refine ⟨d₀, List.mem_cons_self d₀ rest, le_antisymm ?_ ?_⟩
        · rw [h]
          exact hnn d₀ (List.mem_cons_self d₀ rest)
        · exact el_le_foldl_max Detection.effScore (d₀ :: rest) 0 d₀
            (List.mem_cons_self d₀ rest)
      · exact ⟨d, hd, he⟩
    · intro d hd
      rw [foldl_dynFold_conf]
      exact el_le_foldl_max Detection.effScore (d₀ :: rest) 0 d hd
  · intro sym bp cfg
    rfl

/-- A concrete detection list for instantiating the C2 theorem. -/
def c2Detections : List Detection :=
  [{ label := "displaced_fracture", score := some (88/100) }]

/-- C2 (witness): the main theorem instantiated at one detection with
score 0.88 and symptoms "severe pain". -/
theorem applyDynamicRules_score_is_max_contribution_witness :
    (c2Detections ≠ [] ∧ ∀ d ∈ c2Detections, 0 ≤ d.effScore) ∧
    (∃ m conf,
      (applyDynamicRules c2Detections (some "severe pain") none
          (getTriageConfig defaultPolicyConfiguration)).triageScore
        = some (if symptomsSevere (some "severe pain") then min 1 (m + 1/10) else m) ∧
      (applyDynamicRules c2Detections (some "severe pain") none
          (getTriageConfig defaultPolicyConfiguration)).confidence = conf ∧
      (∃ d ∈ c2Detections, m = detectionContribution d) ∧
      (∀ d ∈ c2Detections, detectionContribution d ≤ m) ∧
      (∃ d ∈ c2Detections, conf = d.effScore) ∧
      (∀ d ∈ c2Detections, d.effScore ≤ conf)) :=
  ⟨⟨by decide, by decide⟩,
   applyDynamicRules_score_is_max_contribution.1 c2Detections (some "severe pain") none
     (getTriageConfig defaultPolicyConfiguration) (by decide) (by decide)⟩

/-- The recognized override keys named by the specification. -/
def recognizedOverrideKeys : List String :=
  ["router_threshold", "detector_score_min", "nms_iou",
   "triage_red_threshold", "triage_amber_threshold",
   "triage_high_confidence_threshold", "triage_medium_confidence_threshold",
   "triage_red_patterns", "triage_amber_patterns", "triage_green_patterns",
   "max_retries", "timeout_overrides"]

/-- C9 (counterexample): `validate_overrides` does not reject
unrecognized keys — on the mapping `{"foo": 1}` it returns no errors,
refuting the claim that any unrecognized key yields a non-empty error
list. -/
theorem validateOverrides_ignores_unknown_keys :
    ¬ (∀ ov : List (String × PyVal),
        (∃ kv ∈ ov, kv.1 ∉ recognizedOverrideKeys) →
        validateOverrides ov ≠ []) := by
  intro h
  exact h [("foo", PyVal.intVal 1)]
    ⟨("foo", PyVal.intVal 1), List.mem_singleton.mpr rfl, by decide⟩ (by decide)

theorem lookup_singleton_of_ne {v : PyVal} {a k : String} (h : a ≠ k) :
    List.lookup a [(k, v)] = none := by
  simp [List.lookup, beq_eq_false_iff_ne.mpr h]

/-- The seven keys `validate_overrides` range-checks against [0, 1]. -/
def allThresholdKeys : List String :=
  ["router_threshold", "detector_score_min", "nms_iou"] ++ triageThresholdKeys

/-- C9 (amended): `validate_overrides` silently ignores keys it does not
recognize; it does report an error for any of the seven threshold keys
whose value is outside [0, 1] or non-numeric, for a pattern key whose
value is not a list of strings, for a `max_retries` that is not a
non-negative integer, for a `timeout_overrides` entry whose step name
is neither a legal StepName value nor the alias `detect` (which itself
validates cleanly), and for a legal entry whose timeout is not a
positive integer. -/
theorem validateOverrides_checks :
    (∀ (k : String) (v : PyVal), k ∉ recognizedOverrideKeys →
        validateOverrides [(k, v)] = []) ∧
    (∀ (k : String) (v : PyVal), k ∈ allThresholdKeys →
        v.thresholdInRange = false →
        (k ++ " must be between 0.0 and 1.0") ∈ validateOverrides [(k, v)]) ∧
    (∀ (k : String) (v : PyVal), k ∈ triagePatternKeys →
        v.isListOfStr = false →
        (k ++ " must be a list of strings") ∈ validateOverrides [(k, v)]) ∧
    (∀ v : PyVal, v.isNonnegInt = false →
        "max_retries must be a non-negative integer"
          ∈ validateOverrides [("max_retries", v)]) ∧
    (∀ (stepKey : String) (v : PyVal),
        stepKey ∉ validTimeoutStepNames →
        ("Invalid step name: " ++ stepKey)
          ∈ validateOverrides [("timeout_overrides", PyVal.dictVal [(stepKey, v)])]) ∧
    (∀ (stepKey : String) (v : PyVal),
        stepKey ∈ validTimeoutStepNames →
        v.isPosInt = false →
        ("Timeout for " ++ stepKey ++ " must be a positive integer")
          ∈ validateOverrides [("timeout_overrides", PyVal.dictVal [(stepKey, v)])]) ∧
    validateOverrides
      [("timeout_overrides", PyVal.dictVal [("detect", PyVal.intVal 1)])] = [] := by
  refine ⟨?_, ?_, ?_, ?_, ?_, ?_, by decide⟩
  · intro k v hk
    have hne : ∀ x ∈ recognizedOverrideKeys, x ≠ k := fun x hx he => hk (he ▸ hx)
    simp [validateOverrides, thresholdKeyErrors, patternKeyErrors,
      triageThresholdKeys, triagePatternKeys,
      lookup_singleton_of_ne (hne "router_threshold" (by decide)),
      lookup_singleton_of_ne (hne "detector_score_min" (by decide)),
      lookup_singleton_of_ne (hne "nms_iou" (by decide)),
      lookup_singleton_of_ne (hne "triage_red_threshold" (by decide)),
      lookup_singleton_of_ne (hne "triage_amber_threshold" (by decide)),
      lookup_singleton_of_ne (hne "triage_high_confidence_threshold" (by decide)),
      lookup_singleton_of_ne (hne "triage_medium_confidence_threshold" (by decide)),
      lookup_singleton_of_ne (hne "triage_red_patterns" (by decide)),
      lookup_singleton_of_ne (hne "triage_amber_patterns" (by decide)),
      lookup_singleton_of_ne (hne "triage_green_patterns" (by decide)),
      lookup_singleton_of_ne (hne "max_retries" (by decide)),
      lookup_singleton_of_ne (hne "timeout_overrides" (by decide))]
  · intro k v hk hv
    simp only [allThresholdKeys, triageThresholdKeys, List.mem_append,
      List.mem_cons, List.not_mem_nil, or_false] at hk
    rcases hk with (rfl | rfl | rfl) | (rfl | rfl | rfl | rfl) <;>
      simp [validateOverrides, thresholdKeyErrors, patternKeyErrors,
        triageThresholdKeys, triagePatternKeys, List.lookup, hv]
  · intro k v hk hv
    simp only [triagePatternKeys, List.mem_cons, List.not_mem_nil, or_false] at hk
    rcases hk with rfl | rfl | rfl <;>
      simp [validateOverrides, thresholdKeyErrors, patternKeyErrors,
        triageThresholdKeys, triagePatternKeys, List.lookup, hv]
  · intro v hv
    simp [validateOverrides, thresholdKeyErrors, patternKeyErrors,
      triageThresholdKeys, triagePatternKeys, List.lookup, hv]
  · intro stepKey v hk
    simp [validateOverrides, thresholdKeyErrors, patternKeyErrors,
      triageThresholdKeys, triagePatternKeys, List.lookup, timeoutEntryErrors, hk]
  · intro stepKey v hk hv
    simp [validateOverrides, thresholdKeyErrors, patternKeyErrors,
      triageThresholdKeys, triagePatternKeys, List.lookup, timeoutEntryErrors, hk, hv]

/-- C9 (witness): the amended theorem applied at concrete inputs — an
ignored unrecognized key, an out-of-range `nms_iou`, a string-valued
pattern key, a negative `max_retries`, an illegal timeout step name,
and a zero timeout for a legal step name. -/
theorem validateOverrides_checks_witness :
    ("foo" ∉ recognizedOverrideKeys ∧
      validateOverrides [("foo", PyVal.intVal 1)] = []) ∧
    (PyVal.thresholdInRange (PyVal.floatVal 2) = false ∧
      ("nms_iou must be between 0.0 and 1.0")
        ∈ validateOverrides [("nms_iou", PyVal.floatVal 2)]) ∧
    (PyVal.isListOfStr (PyVal.strVal "fracture") = false ∧
      ("triage_red_patterns must be a list of strings")
        ∈ validateOverrides [("triage_red_patterns", PyVal.strVal "fracture")]) ∧
    (PyVal.isNonnegInt (PyVal.intVal (-1)) = false ∧
      "max_retries must be a non-negative integer"
        ∈ validateOverrides [("max_retries", PyVal.intVal (-1))]) ∧
    ("foot" ∉ validTimeoutStepNames ∧
      ("Invalid step name: foot")
        ∈ validateOverrides
            [("timeout_overrides", PyVal.dictVal [("foot", PyVal.intVal 1)])]) ∧
    (PyVal.isPosInt (PyVal.intVal 0) = false ∧
      ("Timeout for detect_hand must be a positive integer")
        ∈ validateOverrides
            [("timeout_overrides", PyVal.dictVal [("detect_hand", PyVal.intVal 0)])]) :=
  ⟨⟨by decide, validateOverrides_checks.1 "foo" (PyVal.intVal 1) (by decide)⟩,
   ⟨by decide, validateOverrides_checks.2.1 "nms_iou" (PyVal.floatVal 2)
      (by decide) (by decide)⟩,
   ⟨by decide, validateOverrides_checks.2.2.1 "triage_red_patterns"
      (PyVal.strVal "fracture") (by decide) (by decide)⟩,
   ⟨by decide, validateOverrides_checks.2.2.2.1 (PyVal.intVal (-1)) (by decide)⟩,
   ⟨by decide, validateOverrides_checks.2.2.2.2.1 "foot" (PyVal.intVal 1) (by decide)⟩,
   ⟨by decide, validateOverrides_checks.2.2.2.2.2.1 "detect_hand" (PyVal.intVal 0)
      (by decide) (by decide)⟩⟩

/-! Frame and termination lemmas about the step executor. -/

/-- A status the pipeline treats as final for a step. -/
def TerminalStatus (st : StepStatus) : Prop :=
  st = .ok ∨ st = .error ∨ st = .timeout ∨ st = .skipped

theorem find?_updateFirstStep_self (steps : List ProcessingStep) (n : StepName)
    (f : ProcessingStep → ProcessingStep) (hf : ∀ s, (f s).name = s.name) :
    (updateFirstStep steps n f).find? (fun s => s.name == n)
      = (steps.find? (fun s => s.name == n)).map f := by
  induction steps with
  | nil => rfl
  | cons s rest ih =>
    by_cases h : s.name = n
    · rw [updateFirstStep, if_pos h,
        List.find?_cons_of_pos _ (by simp [hf, h]),
        List.find?_cons_of_pos _ (by simp [h])]
      rfl
    · rw [updateFirstStep, if_neg h,
        List.find?_cons_of_neg _ (by simp [h]),
        List.find?_cons_of_neg _ (by simp [h]), ih]

theorem find?_updateFirstStep_other (steps : List ProcessingStep) (n m : StepName)
    (f : ProcessingStep → ProcessingStep) (hf : ∀ s, (f s).name = s.name)
    (hmn : m ≠ n) :
    (updateFirstStep steps n f).find? (fun s => s.name == m)
      = steps.find? (fun s => s.name == m) := by
  induction steps with
  | nil => rfl
  | cons s rest ih =>
    by_cases h : s.name = n
    · rw [updateFirstStep, if_pos h,
        List.find?_cons_of_neg _ (by simp [hf, h, Ne.symm hmn]),
        List.find?_cons_of_neg _ (by simp [h, Ne.symm hmn])]
    · by_cases h2 : s.name = m
      · rw [updateFirstStep, if_neg h,
          List.find?_cons_of_pos _ (by simp [h2]),
          List.find?_cons_of_pos _ (by simp [h2])]
      · rw [updateFirstStep, if_neg h,
          List.find?_cons_of_neg _ (by simp [h2]),
          List.find?_cons_of_neg _ (by simp [h2]), ih]

theorem getStep_updateStep_self (g : StepGraph) (n : StepName)
    (f : ProcessingStep → ProcessingStep) (hf : ∀ s, (f s).name = s.name) :
    (g.updateStep n f).getStep n = (g.getStep n).map f :=
  find?_updateFirstStep_self g.steps n f hf

theorem getStep_updateStep_other (g : StepGraph) (n m : StepName)
    (f : ProcessingStep → ProcessingStep) (hf : ∀ s, (f s).name = s.name)
    (hmn : m ≠ n) :
    (g.updateStep n f).getStep m = g.getStep m :=
  find?_updateFirstStep_other g.steps n m f hf hmn

theorem projectExtras_steps (g : StepGraph) (n : StepName) (r : StageSuccess) :
    (projectExtras g n r).steps = g.steps := by
  unfold projectExtras
  split_ifs <;> first
    | (cases r.bodyPart <;> rfl)
    | (cases r.level <;> rfl)

theorem projectExtras_partialResult (g : StepGraph) (n : StepName) (r : StageSuccess) :
    (projectExtras g n r).partialResult = g.partialResult := by
  unfold projectExtras
  split_ifs <;> first
    | (cases r.bodyPart <;> rfl)
    | (cases r.level <;> rfl)

theorem getStep_congr_steps {g₁ g₂ : StepGraph} (h : g₁.steps = g₂.steps)
    (n : StepName) : g₁.getStep n = g₂.getStep n := by
  unfold StepGraph.getStep
  rw [h]

theorem execLoop_partialResult (cfg : PolicyConfiguration) (env : Env) (n : StepName) :
    ∀ fuel attempt (g : StepGraph),
      (execLoop cfg env n fuel attempt g).partialResult = g.partialResult := by
  intro fuel
  induction fuel with
  | zero => intro attempt g; rfl
  | succ fuel ih =>
    intro attempt g
    unfold execLoop
    cases env.outcome n attempt with
    | success r =>
      dsimp only
      by_cases hd : r.isDict
      · rw [if_pos hd]
        rw [projectExtras_partialResult]
        rfl
      · rw [if_neg hd]
        rfl
    | timedOut =>
      dsimp only
      by_cases hr : shouldRetryStep cfg n attempt "timeout"
      · rw [if_pos hr]
        rw [ih]
        rfl
      · rw [if_neg hr]
        rfl
    | raised errorType message =>
      dsimp only
      by_cases hr : shouldRetryStep cfg n attempt errorType
      · rw [if_pos hr]
        rw [ih]
        rfl
      · rw [if_neg hr]
        rfl

theorem executeStep_partialResult (cfg : PolicyConfiguration) (env : Env)
    (g : StepGraph) (n : StepName) :
    (executeStep cfg env g n).partialResult = g.partialResult := by
  unfold executeStep
  cases h : g.getStep n with
  | none => rfl
  | some step =>
    dsimp only
    by_cases hp : step.status ≠ StepStatus.pending
    · rw [if_pos hp]
    · rw [if_neg hp]
      by_cases hh : env.handlers n
      · rw [if_neg (by simp [hh])]
        exact execLoop_partialResult cfg env n _ 0 g
      · rw [if_pos (by simp [hh])]
        rfl

theorem shouldRetryStep_lt (cfg : PolicyConfiguration) (n : StepName)
    (k : ℕ) (e : String) (h : shouldRetryStep cfg n k e = true) :
    k < (cfg.getStepPolicy n).maxRetries.toNat := by
  unfold shouldRetryStep at h
  split_ifs at h with ht
  unfold StepPolicy.shouldRetry at h
  split_ifs at h with h1 h2 h3
  all_goals omega

theorem execLoop_getStep_other (cfg : PolicyConfiguration) (env : Env)
    (n m : StepName) (hmn : m ≠ n) :
    ∀ fuel attempt (g : StepGraph),
      (execLoop cfg env n fuel attempt g).getStep m = g.getStep m := by
  intro fuel
  induction fuel with
  | zero => intro attempt g; rfl
  | succ fuel ih =>
    intro attempt g
    unfold execLoop
    cases env.outcome n attempt with
    | success r =>
      dsimp only
      by_cases hd : r.isDict
      · rw [if_pos hd]
        rw [getStep_congr_steps (projectExtras_steps _ _ _),
          getStep_updateStep_other _ n m (fun s => s.complete r.confidence r.artifacts)
            (fun s => rfl) hmn,
          getStep_updateStep_other _ n m (startAttempt attempt) (fun s => rfl) hmn]
      · rw [if_neg hd]
        rw [getStep_updateStep_other _ n m (fun s => s.complete none [])
            (fun s => rfl) hmn,
          getStep_updateStep_other _ n m (startAttempt attempt) (fun s => rfl) hmn]
    | timedOut =>
      dsimp only
      by_cases hr : shouldRetryStep cfg n attempt "timeout"
      · rw [if_pos hr]
        rw [ih,
          getStep_updateStep_other _ n m resetForRetry (fun s => rfl) hmn,
          getStep_updateStep_other _ n m ProcessingStep.markTimeout (fun s => rfl) hmn,
          getStep_updateStep_other _ n m (startAttempt attempt) (fun s => rfl) hmn]
      · rw [if_neg hr]
        rw [getStep_updateStep_other _ n m ProcessingStep.markTimeout (fun s => rfl) hmn,
          getStep_updateStep_other _ n m (startAttempt attempt) (fun s => rfl) hmn]
    | raised errorType message =>
      dsimp only
      by_cases hr : shouldRetryStep cfg n attempt errorType
      · rw [if_pos hr]
        rw [ih,
          getStep_updateStep_other _ n m resetForRetry (fun s => rfl) hmn,
          getStep_updateStep_other _ n m (startAttempt attempt) (fun s => rfl) hmn]
      · rw [if_neg hr]
        rw [getStep_updateStep_other _ n m (fun s => s.fail message) (fun s => rfl) hmn,
          getStep_updateStep_other _ n m (startAttempt attempt) (fun s => rfl) hmn]

theorem executeStep_getStep_other (cfg : PolicyConfiguration) (env : Env)
    (g : StepGraph) (n m : StepName) (hmn : m ≠ n) :
    (executeStep cfg env g n).getStep m = g.getStep m := by
  unfold executeStep
  cases h : g.getStep n with
  | none => rfl
  | some step =>
    dsimp only
    by_cases hp : step.status ≠ StepStatus.pending
    · rw [if_pos hp]
    · rw [if_neg hp]
      by_cases hh : env.handlers n
      · rw [if_neg (by simp [hh])]
        exact execLoop_getStep_other cfg env n m hmn _ 0 g
      · rw [if_pos (by simp [hh])]
        exact getStep_updateStep_other _ n m (fun s => s.skip "No handler available")
          (fun s => rfl) hmn

theorem execLoop_terminal (cfg : PolicyConfiguration) (env : Env) (n : StepName) :
    ∀ fuel attempt (g : StepGraph),
      (cfg.getStepPolicy n).maxRetries.toNat < fuel + attempt →
      attempt ≤ (cfg.getStepPolicy n).maxRetries.toNat →
      (g.getStep n).isSome →
      ∃ s, (execLoop cfg env n fuel attempt g).getStep n = some s ∧
        TerminalStatus s.status := by
  intro fuel
  induction fuel with
  | zero =>
    intro attempt g hbound hatt
    omega
  | succ fuel ih =>
    intro attempt g hbound hatt hsome
    obtain ⟨s0, hs0⟩ := Option.isSome_iff_exists.mp hsome
    unfold execLoop
    cases env.outcome n attempt with
    | success r =>
      dsimp only
      by_cases hd : r.isDict
      · rw [if_pos hd]
        rw [getStep_congr_steps (projectExtras_steps _ _ _),
          getStep_updateStep_self _ n (fun s => s.complete r.confidence r.artifacts)
            (fun s => rfl),
          getStep_updateStep_self _ n (startAttempt attempt) (fun s => rfl), hs0]
        exact ⟨_, rfl, Or.inl rfl⟩
      · rw [if_neg hd]
        rw [getStep_updateStep_self _ n (fun s => s.complete none []) (fun s => rfl),
          getStep_updateStep_self _ n (startAttempt attempt) (fun s => rfl), hs0]
        exact ⟨_, rfl, Or.inl rfl⟩
    | timedOut =>
      dsimp only
      by_cases hr : shouldRetryStep cfg n attempt "timeout"
      · rw [if_pos hr]
        have hlt := shouldRetryStep_lt cfg n attempt "timeout" hr
        refine ih (attempt + 1) _ (by omega) (by omega) ?_
        rw [getStep_updateStep_self _ n resetForRetry (fun s => rfl),
          getStep_updateStep_self _ n ProcessingStep.markTimeout (fun s => rfl),
          getStep_updateStep_self _ n (startAttempt attempt) (fun s => rfl), hs0]
        rfl
      · rw [if_neg hr]
        rw [getStep_updateStep_self _ n ProcessingStep.markTimeout (fun s => rfl),
          getStep_updateStep_self _ n (startAttempt attempt) (fun s => rfl), hs0]
        exact ⟨_, rfl, Or.inr (Or.inr (Or.inl rfl))⟩
    | raised errorType message =>
      dsimp only
      by_cases hr : shouldRetryStep cfg n attempt errorType
      · rw [if_pos hr]
        have hlt := shouldRetryStep_lt cfg n attempt errorType hr
        refine ih (attempt + 1) _ (by omega) (by omega) ?_
        rw [getStep_updateStep_self _ n resetForRetry (fun s => rfl),
          getStep_updateStep_self _ n (startAttempt attempt) (fun s => rfl), hs0]
        rfl
      · rw [if_neg hr]
        rw [getStep_updateStep_self _ n (fun s => s.fail message) (fun s => rfl),
          getStep_updateStep_self _ n (startAttempt attempt) (fun s => rfl), hs0]
        exact ⟨_, rfl, Or.inr (Or.inl rfl)⟩

theorem executeStep_pending_terminal (cfg : PolicyConfiguration) (env : Env)
    (g : StepGraph) (n : StepName) (s : ProcessingStep)
    (h : g.getStep n = some s) (hp : s.status = StepStatus.pending) :
    ∃ s', (executeStep cfg env g n).getStep n = some s' ∧ TerminalStatus s'.status := by
  unfold executeStep
  rw [h]
  dsimp only
  rw [if_neg (by simp [hp])]
  by_cases hh : env.handlers n
  · rw [if_neg (by simp [hh])]
    exact execLoop_terminal cfg env n _ 0 g (by omega) (by omega) (by simp [h])
  · rw [if_pos (by simp [hh])]
    rw [getStep_updateStep_self _ n (fun s => s.skip "No handler available")
      (fun s => rfl), h]
    exact ⟨_, rfl, Or.inr (Or.inr (Or.inr rfl))⟩

/-- C10: invoking the step executor on a step that is not PENDING
returns immediately: the step graph — every step record included — is
returned unchanged, so steps in a terminal status (or RUNNING) are
never re-executed by the executor. -/
theorem executeStep_frame_nonpending (cfg : PolicyConfiguration) (env : Env)
    (g : StepGraph) (n : StepName) (s : ProcessingStep)
    (h : g.getStep n = some s) (hs : s.status ≠ StepStatus.pending) :
    executeStep cfg env g n = g := by
  unfold executeStep
  rw [h]
  dsimp only
  rw [if_pos hs]

/-- C10 (witness): the frame theorem applied to a one-step graph whose
ROUTE step already ended OK. -/
theorem executeStep_frame_nonpending_witness :
    (let g : StepGraph :=
      { mode := .auto, thresholds := ⟨7/10, 35/100, 1/2⟩,
        steps := [{ name := .route, status := .ok }] }
     g.getStep .route = some { name := .route, status := .ok } ∧
     (executeStep defaultPolicyConfiguration
        ⟨fun _ => true, fun _ _ => .timedOut⟩ g .route = g)) :=
  ⟨rfl, executeStep_frame_nonpending _ _ _ _ _ rfl (by decide)⟩

/-- The spec's notion of a fatal error, for comparison with the source's
`has_fatal_error`: some step whose policy sets `fatal_on_error` ended in
ERROR or TIMEOUT. -/
def specHasFatalError (cfg : PolicyConfiguration) (g : StepGraph) : Bool :=
  g.steps.any (fun s =>
    (cfg.getStepPolicy s.name).isFatalOnError &&
    (s.status == StepStatus.error || s.status == StepStatus.timeout))

/-- C4 (counterexample): `has_fatal_error` ignores TIMEOUT — a step
graph whose ROUTE step timed out is fatal per the claim (ROUTE has
`fatal_on_error = true` by default) but `has_fatal_error` returns
false. -/
theorem hasFatalError_claim_false :
    ¬ (∀ g : StepGraph,
        g.hasFatalError = specHasFatalError defaultPolicyConfiguration g) := by
  intro h
  have hg := h { mode := .auto, thresholds := ⟨7/10, 35/100, 1/2⟩,
                 steps := [{ name := .route, status := .timeout }] }
  exact absurd hg (by decide)

/-- C4 (amended): `has_fatal_error` returns true iff some VALIDATE or
ROUTE step has status ERROR — the step set is hardcoded (it coincides
with the default policy's `fatal_on_error` steps, as the second
conjunct shows) and a TIMEOUT never counts. -/
theorem hasFatalError_characterization :
    (∀ g : StepGraph,
      g.hasFatalError = true ↔
        ∃ s ∈ g.steps,
          (s.name = StepName.validate ∨ s.name = StepName.route) ∧
          s.status = StepStatus.error) ∧
    (∀ n : StepName,
      (defaultPolicyConfiguration.getStepPolicy n).isFatalOnError = true ↔
        (n = StepName.validate ∨ n = StepName.route)) := by
  constructor
  · intro g
    unfold StepGraph.hasFatalError
    simp [List.any_eq_true]
  · intro n
    cases n <;> decide

/-! Partial-flag preservation lemmas for the mode processors. -/

theorem updateStep_partialResult (g : StepGraph) (n : StepName)
    (f : ProcessingStep → ProcessingStep) :
    (g.updateStep n f).partialResult = g.partialResult := rfl

theorem addStep_partialResult (g : StepGraph) (n : StepName) :
    (g.addStep n).partialResult = g.partialResult := rfl

theorem autoDetectPhase_partialResult (cfg : PolicyConfiguration) (env : Env)
    (g : StepGraph) :
    (autoDetectPhase cfg env g).partialResult = g.partialResult := by
  unfold autoDetectPhase
  cases g.getStep .route with
  | none => rfl
  | some rs =>
    dsimp only
    by_cases hok : rs.status = StepStatus.ok
    · rw [if_pos hok]
      cases g.detectedBodyPart with
      | none => rfl
      | some bp =>
        cases bp <;> simp [executeStep_partialResult, addStep_partialResult]
    · rw [if_neg hok]

theorem autoTailSteps_partialResult (cfg : PolicyConfiguration) (env : Env)
    (g : StepGraph) :
    (autoTailSteps cfg env g).partialResult = g.partialResult := by
  unfold autoTailSteps
  dsimp only
  split_ifs <;> simp [executeStep_partialResult]

theorem setPartialFlag_partial_iff (g : StepGraph) (hg : g.partialResult = false) :
    (setPartialFlag g).partialResult = true ↔
      (¬ (setPartialFlag g).getFailedSteps.isEmpty ∧
       (setPartialFlag g).hasFatalError = false) := by
  unfold setPartialFlag
  by_cases hc : ¬ g.getFailedSteps.isEmpty ∧ ¬ g.hasFatalError
  · rw [if_pos hc]
    constructor
    · intro _
      exact ⟨hc.1, by simpa using hc.2⟩
    · intro _
      rfl
  · rw [if_neg hc, hg]
    constructor
    · intro h
      cases h
    · rintro ⟨h1, h2⟩
      exact absurd ⟨h1, by simp [h2]⟩ hc

theorem guidedRouteCheck_partialResult (g : StepGraph) :
    (guidedRouteCheck g).partialResult = g.partialResult := by
  unfold guidedRouteCheck
  cases g.getStep .route with
  | none => rfl
  | some rs =>
    dsimp only
    cases rs.confidence with
    | none => rfl
    | some c =>
      dsimp only
      split_ifs <;> rfl

theorem guidedDetectPhase_partialResult (cfg : PolicyConfiguration) (env : Env)
    (g : StepGraph) :
    (guidedDetectPhase cfg env g).partialResult = g.partialResult := by
  unfold guidedDetectPhase
  dsimp only
  split_ifs <;> simp [executeStep_partialResult, addStep_partialResult]

/-- C3 (counterexample): in GUIDED mode the partial flag is never set —
a concrete run in which DIAGNOSE fails (after one retry), no fatal error
occurs, yet `partial` remains false, refutes the claimed equivalence for
every mode. -/
theorem guided_partial_flag_claim_false :
    ¬ ((processRequest defaultPolicyConfiguration
          ⟨fun _ => true,
           fun name _ =>
             match name with
             | .route => .success { confidence := some (9/10), bodyPart := some .hand }
             | .diagnose => .raised "RuntimeError" "boom"
             | _ => .success {}⟩
          { mode := .guided }).stepGraph.partialResult = true ↔
        (¬ (processRequest defaultPolicyConfiguration
              ⟨fun _ => true,
               fun name _ =>
                 match name with
                 | .route => .success { confidence := some (9/10), bodyPart := some .hand }
                 | .diagnose => .raised "RuntimeError" "boom"
                 | _ => .success {}⟩
              { mode := .guided }).stepGraph.getFailedSteps.isEmpty ∧
         (processRequest defaultPolicyConfiguration
            ⟨fun _ => true,
             fun name _ =>
               match name with
               | .route => .success { confidence := some (9/10), bodyPart := some .hand }
               | .diagnose => .raised "RuntimeError" "boom"
               | _ => .success {}⟩
            { mode := .guided }).stepGraph.hasFatalError = false)) := by
  decide

/-- C3 (amended): in AUTO mode (and hence ADVANCED mode, which delegates
to it) the final graph's partial flag is true iff some step ended in
ERROR or TIMEOUT and `has_fatal_error()` is false, provided the flag
started false; in GUIDED mode the flag is never touched. -/
theorem partial_flag_characterization :
    (∀ (cfg : PolicyConfiguration) (env : Env) (g : StepGraph),
      g.partialResult = false →
      ((processAutoMode cfg env g).partialResult = true ↔
        (¬ (processAutoMode cfg env g).getFailedSteps.isEmpty ∧
         (processAutoMode cfg env g).hasFatalError = false))) ∧
    (∀ (cfg : PolicyConfiguration) (env : Env) (req : ProcessingRequest)
        (g : StepGraph),
      (processGuidedMode cfg env req g).partialResult = g.partialResult) := by
  constructor
  · intro cfg env g hg
    unfold processAutoMode
    by_cases h1 : (executeStep cfg env g .validate).hasFatalError
    · rw [if_pos h1]
      simp [executeStep_partialResult, hg, h1]
    · rw [if_neg h1]
      by_cases h2 : (executeStep cfg env (executeStep cfg env g .validate) .route).hasFatalError
      · rw [if_pos h2]
        simp [executeStep_partialResult, hg, h2]
      · rw [if_neg h2]
        unfold autoTail
        apply setPartialFlag_partial_iff
        rw [autoTailSteps_partialResult, autoDetectPhase_partialResult,
          executeStep_partialResult, executeStep_partialResult]
        exact hg
  · intro cfg env req g
    unfold processGuidedMode
    dsimp only
    split_ifs <;>
      simp [executeStep_partialResult, updateStep_partialResult, addStep_partialResult,
        guidedRouteCheck_partialResult, guidedDetectPhase_partialResult]

/-- C3 (witness): the AUTO part of the amended theorem instantiated on a
concrete run in which REPORT times out twice: the flag ends true and the
equivalence holds. -/
theorem partial_flag_characterization_witness :
    ((createStepGraph defaultPolicyConfiguration { mode := .auto }).partialResult = false) ∧
    ((processAutoMode defaultPolicyConfiguration
        ⟨fun _ => true,
         fun name _ =>
           match name with
           | .route => .success { confidence := some (9/10), bodyPart := some .hand }
           | .report => .timedOut
           | _ => .success {}⟩
        (createStepGraph defaultPolicyConfiguration { mode := .auto })).partialResult = true ↔
      (¬ (processAutoMode defaultPolicyConfiguration
            ⟨fun _ => true,
             fun name _ =>
               match name with
               | .route => .success { confidence := some (9/10), bodyPart := some .hand }
               | .report => .timedOut
               | _ => .success {}⟩
            (createStepGraph defaultPolicyConfiguration { mode := .auto })).getFailedSteps.isEmpty ∧
       (processAutoMode defaultPolicyConfiguration
          ⟨fun _ => true,
           fun name _ =>
             match name with
             | .route => .success { confidence := some (9/10), bodyPart := some .hand }
             | .report => .timedOut
             | _ => .success {}⟩
          (createStepGraph defaultPolicyConfiguration { mode := .auto })).hasFatalError = false)) :=
  ⟨rfl,
   partial_flag_characterization.1 defaultPolicyConfiguration
     ⟨fun _ => true,
      fun name _ =>
        match name with
        | .route => .success { confidence := some (9/10), bodyPart := some .hand }
        | .report => .timedOut
        | _ => .success {}⟩
     (createStepGraph defaultPolicyConfiguration { mode := .auto }) rfl⟩

/-! Adding steps and the detector fan-out. -/

theorem getStep_addStep_of_ne (g : StepGraph) (n m : StepName) (hmn : m ≠ n) :
    (g.addStep n).getStep m = g.getStep m := by
  unfold StepGraph.addStep StepGraph.getStep
  rw [List.find?_append]
  have hfind : List.find? (fun s => s.name == m) [({ name := n } : ProcessingStep)]
      = none := by
    simp [List.find?, beq_eq_false_iff_ne.mpr (Ne.symm hmn)]
  rw [hfind, Option.or_none]

theorem getStep_addStep_self_of_none (g : StepGraph) (n : StepName)
    (h : g.getStep n = none) :
    (g.addStep n).getStep n = some { name := n } := by
  unfold StepGraph.addStep StepGraph.getStep
  unfold StepGraph.getStep at h
  rw [List.find?_append, h]
  simp [List.find?]

/-- C7 (counterexample): in AUTO mode, when ROUTE completes OK but the
detected body part is absent (the handler result carried no `body_part`
key), no detector step is appended at all, refuting the claim that the
absent case behaves like UNKNOWN. -/
theorem autoMode_nil_bodypart_claim_false :
    ¬ (∀ (cfg : PolicyConfiguration) (env : Env) (req : ProcessingRequest),
        req.mode = .auto →
        ((processRequest cfg env req).stepGraph.getStep .route).map
            (fun s => s.status) = some .ok →
        (processRequest cfg env req).stepGraph.detectedBodyPart = none →
        (((processRequest cfg env req).stepGraph.getStep .detectHand).isSome ∧
         ((processRequest cfg env req).stepGraph.getStep .detectLeg).isSome)) := by
  intro h
  have hc := h defaultPolicyConfiguration
    ⟨fun _ => true,
     fun name _ =>
       match name with
       | .route => .success { confidence := some (9/10) }
       | _ => .success {}⟩
    { mode := .auto } rfl (by decide) (by decide)
  exact absurd hc (by decide)

/-- C7 (amended): in the AUTO detector phase, when ROUTE ended OK and
the detected body part is UNKNOWN, both DETECT_HAND and DETECT_LEG are
appended and each is executed to a terminal status of its own — the
outcome of one never gates the other; when the detected body part is
absent (`None`), the phase adds and runs no detector and leaves the
graph unchanged. -/
theorem autoDetectPhase_unknown_runs_both :
    (∀ (cfg : PolicyConfiguration) (env : Env) (g : StepGraph)
        (rs : ProcessingStep),
      g.getStep .route = some rs → rs.status = StepStatus.ok →
      g.detectedBodyPart = some BodyPart.unknown →
      g.getStep .detectHand = none → g.getStep .detectLeg = none →
      ∃ sh sl,
        (autoDetectPhase cfg env g).getStep .detectHand = some sh ∧
        (autoDetectPhase cfg env g).getStep .detectLeg = some sl ∧
        TerminalStatus sh.status ∧ TerminalStatus sl.status) ∧
    (∀ (cfg : PolicyConfiguration) (env : Env) (g : StepGraph)
        (rs : ProcessingStep),
      g.getStep .route = some rs → rs.status = StepStatus.ok →
      g.detectedBodyPart = none →
      autoDetectPhase cfg env g = g) := by
  constructor
  · intro cfg env g rs hroute hok hbp hh hl
    unfold autoDetectPhase
    rw [hroute]
    dsimp only
    rw [if_pos hok, hbp]
    dsimp only
    have hh2 : ((g.addStep .detectHand).addStep .detectLeg).getStep .detectHand
        = some { name := .detectHand } := by
      rw [getStep_addStep_of_ne _ _ _ (by decide)]
      exact getStep_addStep_self_of_none g _ hh
    have hl2 : ((g.addStep .detectHand).addStep .detectLeg).getStep .detectLeg
        = some { name := .detectLeg } := by
      apply getStep_addStep_self_of_none
      rw [getStep_addStep_of_ne _ _ _ (by decide)]
      exact hl
    obtain ⟨sh, hsh, hshterm⟩ :=
      executeStep_pending_terminal cfg env ((g.addStep .detectHand).addStep .detectLeg)
        .detectHand _ hh2 rfl
    have hl3 : (executeStep cfg env ((g.addStep .detectHand).addStep .detectLeg)
        .detectHand).getStep .detectLeg = some { name := .detectLeg } := by
      rw [executeStep_getStep_other _ _ _ _ _ (by decide)]
      exact hl2
    obtain ⟨sl, hsl, hslterm⟩ :=
      executeStep_pending_terminal cfg env _ .detectLeg _ hl3 rfl
    refine ⟨sh, sl, ?_, hsl, hshterm, hslterm⟩
    rw [executeStep_getStep_other _ _ _ _ _ (by decide)]
    exact hsh
  · intro cfg env g rs hroute hok hbp
    unfold autoDetectPhase
    rw [hroute]
    dsimp only
    rw [if_pos hok, hbp]

/-- C7 (witness): the amended theorem instantiated on a concrete
post-ROUTE graph with detected body part UNKNOWN, under an environment
in which DETECT_HAND raises a non-transient error and DETECT_LEG
succeeds. -/
theorem autoDetectPhase_unknown_runs_both_witness :
    (let g : StepGraph :=
      { mode := .auto, thresholds := ⟨7/10, 35/100, 1/2⟩,
        steps := [{ name := .validate, status := .ok },
                  { name := .route, status := .ok, confidence := some (1/2) }],
        detectedBodyPart := some BodyPart.unknown }
     let env : Env :=
      ⟨fun _ => true,
       fun name _ =>
         match name with
         | .detectHand => .raised "ValueError" "bad image"
         | _ => .success {}⟩
     g.getStep .route = some { name := .route, status := .ok, confidence := some (1/2) } ∧
     g.detectedBodyPart = some BodyPart.unknown ∧
     ∃ sh sl,
       (autoDetectPhase defaultPolicyConfiguration env g).getStep .detectHand = some sh ∧
       (autoDetectPhase defaultPolicyConfiguration env g).getStep .detectLeg = some sl ∧
       TerminalStatus sh.status ∧ TerminalStatus sl.status) :=
  ⟨rfl, rfl,
   autoDetectPhase_unknown_runs_both.1 defaultPolicyConfiguration _ _
     { name := .route, status := .ok, confidence := some (1/2) }
     rfl rfl rfl rfl rfl⟩

/-- C8 (counterexample): in GUIDED mode with a below-threshold routing
confidence, the returned response carries no guided prompt at all — the
`GuidedPrompt` the source builds is dropped — refuting the claim that
the response contains a low-confidence prompt. -/
theorem guided_prompt_claim_false :
    ¬ (∀ (cfg : PolicyConfiguration) (env : Env) (req : ProcessingRequest)
        (rs : ProcessingStep) (c : ℚ),
        req.mode = .guided →
        (processRequest cfg env req).stepGraph.getStep .route = some rs →
        rs.confidence = some c → c ≠ 0 → c < cfg.routerThreshold →
        (processRequest cfg env req).guidedPrompts ≠ []) := by
  intro h
  have hc := h defaultPolicyConfiguration
    ⟨fun _ => true,
     fun name _ =>
       match name with
       | .route => .success { confidence := some (1/2), bodyPart := some .hand }
       | _ => .success {}⟩
    { mode := .guided }
    { name := .route, status := .ok, confidence := some (1/2) } (1/2)
    rfl (by decide) rfl (by decide) (by decide)
  exact hc (by decide)

/-- C8 (amended): the orchestrator never attaches a guided prompt — the
response's `guided_prompts` list is always empty — while the
low-confidence route check does default the detected body part to
UNKNOWN (for a truthy confidence below the router threshold), and an
UNKNOWN body part makes the guided detector phase add and run both
detectors, each to its own terminal status. -/
theorem guided_low_confidence_defaults_to_both :
    (∀ (cfg : PolicyConfiguration) (env : Env) (req : ProcessingRequest),
      (processRequest cfg env req).guidedPrompts = []) ∧
    (∀ (g : StepGraph) (rs : ProcessingStep) (c : ℚ),
      g.getStep .route = some rs → rs.confidence = some c → c ≠ 0 →
      c < g.thresholds.routerThreshold →
      (guidedRouteCheck g).detectedBodyPart = some BodyPart.unknown) ∧
    (∀ (cfg : PolicyConfiguration) (env : Env) (g : StepGraph),
      g.detectedBodyPart = some BodyPart.unknown →
      g.getStep .detectHand = none → g.getStep .detectLeg = none →
      ∃ sh sl,
        (guidedDetectPhase cfg env g).getStep .detectHand = some sh ∧
        (guidedDetectPhase cfg env g).getStep .detectLeg = some sl ∧
        TerminalStatus sh.status ∧ TerminalStatus sl.status) := by
  refine ⟨?_, ?_, ?_⟩
  · intro cfg env req
    unfold processRequest
    cases req.mode <;> rfl
  · intro g rs c hroute hconf hc0 hcthr
    unfold guidedRouteCheck
    rw [hroute]
    dsimp only
    rw [hconf]
    dsimp only
    rw [if_pos ⟨hc0, hcthr⟩]
  · intro cfg env g hbp hh hl
    unfold guidedDetectPhase
    dsimp only
    rw [if_pos (Or.inr hbp), if_pos (Or.inr hbp)]
    have hh2 : (g.addStep .detectHand).getStep .detectHand
        = some { name := .detectHand } := getStep_addStep_self_of_none g _ hh
    obtain ⟨sh, hsh, hshterm⟩ :=
      executeStep_pending_terminal cfg env (g.addStep .detectHand) .detectHand _ hh2 rfl
    have hl2 : ((executeStep cfg env (g.addStep .detectHand) .detectHand).addStep
        .detectLeg).getStep .detectLeg = some { name := .detectLeg } := by
      apply getStep_addStep_self_of_none
      rw [executeStep_getStep_other _ _ _ _ _ (by decide),
        getStep_addStep_of_ne _ _ _ (by decide)]
      exact hl
    obtain ⟨sl, hsl, hslterm⟩ :=
      executeStep_pending_terminal cfg env _ .detectLeg _ hl2 rfl
    refine ⟨sh, sl, ?_, hsl, hshterm, hslterm⟩
    rw [executeStep_getStep_other _ _ _ _ _ (by decide),
      getStep_addStep_of_ne _ _ _ (by decide)]
    exact hsh

/-- C8 (witness): the amended theorem instantiated on a concrete guided
run: route confidence 0.5 against the default threshold 0.7, and a
graph with detected body part UNKNOWN whose DETECT_LEG handler times
out with no retry budget left. -/
theorem guided_low_confidence_defaults_to_both_witness :
    ((processRequest defaultPolicyConfiguration
        ⟨fun _ => true, fun _ _ => .success {}⟩
        { mode := .guided }).guidedPrompts = []) ∧
    (let g : StepGraph :=
      { mode := .guided, thresholds := ⟨7/10, 35/100, 1/2⟩,
        steps := [{ name := .route, status := .ok, confidence := some (1/2) }] }
     g.getStep .route = some { name := .route, status := .ok, confidence := some (1/2) } ∧
     (guidedRouteCheck g).detectedBodyPart = some BodyPart.unknown) ∧
    (let g : StepGraph :=
      { mode := .guided, thresholds := ⟨7/10, 35/100, 1/2⟩,
        steps := [{ name := .route, status := .ok, confidence := some (1/2) }],
        detectedBodyPart := some BodyPart.unknown }
     ∃ sh sl,
       (guidedDetectPhase defaultPolicyConfiguration
           ⟨fun _ => true,
            fun name _ =>
              match name with
              | .detectLeg => .timedOut
              | _ => .success {}⟩ g).getStep .detectHand = some sh ∧
       (guidedDetectPhase defaultPolicyConfiguration
           ⟨fun _ => true,
            fun name _ =>
              match name with
              | .detectLeg => .timedOut
              | _ => .success {}⟩ g).getStep .detectLeg = some sl ∧
       TerminalStatus sh.status ∧ TerminalStatus sl.status) :=
  ⟨guided_low_confidence_defaults_to_both.1 defaultPolicyConfiguration
     ⟨fun _ => true, fun _ _ => .success {}⟩ { mode := .guided },
   ⟨rfl,
    guided_low_confidence_defaults_to_both.2.1 _
      { name := .route, status := .ok, confidence := some (1/2) } (1/2)
      rfl rfl (by norm_num) (by norm_num)⟩,
   guided_low_confidence_defaults_to_both.2.2 defaultPolicyConfiguration _ _
     rfl rfl rfl⟩

end GDHS
